import Mathlib

/-!
# Verification of the Real_Estate_Open extraction-validation-dual-sink pipeline

Shallow embedding of the extraction agent (`src/agents/extraction_agent.py`),
the Pydantic schema models (`src/database/models.py`), the PostgreSQL client
(`src/database/postgres_client.py`) and the Prefect document pipeline
(`src/pipelines/document_pipeline.py`).

Modelling conventions:
* Python exceptions are modelled with `Except String`; a function that the
  source guarantees never to raise gets a plain (non-`Except`) return type.
* `json.loads` is modelled by an executable fuel-based recursive-descent JSON
  parser over `List Char` (`json_loads`).  JSON numeric literals are modelled
  as integers: a trailing `.`/`e` part makes the parse fail, which is a
  deliberate restriction of the model (no claim exercises float literals);
  `\u` string escapes are likewise unsupported.
* External collaborators (the LLM, the dltHub loader, the raw database
  connection, ChromaDB, the PDF parser) are parameters of the embedding: their
  behaviour on the one call the code makes is passed in as an `Except` value.
* Python truthiness of JSON-decoded values is modelled by `Json.truthy`.
-/

set_option linter.unusedVariables false
set_option maxRecDepth 100000

namespace RealEstate

/-! ## JSON values (the result type of `json.loads`) -/

/-- A JSON value as produced by `json.loads`.  Numbers are modelled as
integers (see the module docstring). -/
inductive Json where
  | null : Json
  | bool : Bool → Json
  | num : Int → Json
  | str : String → Json
  | arr : List Json → Json
  | obj : List (String × Json) → Json
deriving Repr, BEq

/-- Python truthiness of a JSON-decoded value (`if not extracted_data:` &c.):
`None`, `False`, `0`, `""`, `[]` and the empty dict are falsy. -/
def Json.truthy : Json → Bool
  | .null => false
  | .bool b => b
  | .num n => n != 0
  | .str s => !(s == "")
  | .arr xs => !xs.isEmpty
  | .obj fs => !fs.isEmpty

/-- `str()` of a JSON-decoded Python value, as used by f-string interpolation
of `item.get('task_id', 'unknown')`.  Containers get a placeholder rendering
(no claim formats a container as a key). -/
def pyStr : Json → String
  | .null => "None"
  | .bool true => "True"
  | .bool false => "False"
  | .num n => toString n
  | .str s => s
  | .arr _ => "<list>"
  | .obj _ => "<dict>"

/-! ## Lexing helpers, structural on the character list -/

def isWsChar (c : Char) : Bool := c == ' ' || c == '\n' || c == '\t' || c == '\r'

def skipWs : List Char → List Char
  | c :: cs => if isWsChar c then skipWs cs else c :: cs
  | [] => []

def isDigitChar (c : Char) : Bool := '0' ≤ c && c ≤ '9'

/-- Python's `str.lower()` (kernel-reducible model; the library `toLower`
uses position-based recursion that does not evaluate by `rfl`). -/
def pyLower (s : String) : String := String.mk (s.data.map Char.toLower)

/-- Python's `str.strip()` restricted to the whitespace characters the model
lexes. -/
def pyStrip (s : String) : String :=
  String.mk (((s.data.dropWhile isWsChar).reverse.dropWhile isWsChar).reverse)

/-- Consume a maximal run of decimal digits. -/
def takeDigits : List Char → List Char × List Char
  | c :: cs =>
    if isDigitChar c then
      let (ds, r) := takeDigits cs
      (c :: ds, r)
    else ([], c :: cs)
  | [] => ([], [])

def digitsVal (ds : List Char) : Nat :=
  ds.foldl (fun acc c => acc * 10 + (c.toNat - '0'.toNat)) 0

/-- The one-character string escapes recognised by the model, as a lookup
table from escape letter to escaped character. -/
def escapePairs : List (Char × Char) :=
  [('"', '"'), ('\\', '\\'), ('/', '/'), ('n', '\n'), ('t', '\t'), ('r', '\r'),
   ('b', '\x08'), ('f', '\x0c')]

def unescapeChar (c : Char) : Option Char :=
  match escapePairs.find? (fun p => p.1 == c) with
  | some p => some p.2
  | none => none

/-- Parse the body of a JSON string literal (after the opening quote). -/
def parseStringBody (acc : List Char) : List Char → Option (String × List Char)
  | '"' :: rest => some (String.mk acc.reverse, rest)
  | '\\' :: e :: rest =>
    match unescapeChar e with
    | some ch => parseStringBody (ch :: acc) rest
    | none => none
  | c :: rest => parseStringBody (c :: acc) rest
  | [] => none

/-- A maximal digit run read as a nonnegative integer, refusing an empty run
and a following fractional or exponent marker (the model's integer-only
restriction, see the module docstring). -/
def numFromDigits (cs : List Char) : Option (Int × List Char) :=
  match takeDigits cs with
  | ([], _) => none
  | (ds, more) =>
    match more with
    | '.' :: _ => none
    | 'e' :: _ => none
    | 'E' :: _ => none
    | _ => some ((digitsVal ds : Nat), more)

/-- Parse a JSON integer literal, with an optional leading minus sign. -/
def parseNumberLit (cs : List Char) : Option (Json × List Char) :=
  match cs with
  | '-' :: tail => (numFromDigits tail).map (fun p => (Json.num (-p.1), p.2))
  | _ => (numFromDigits cs).map (fun p => (Json.num p.1, p.2))

/-- Drop an expected literal keyword tail (`ull`, `rue`, `alse`). -/
def dropLit : List Char → List Char → Option (List Char)
  | [], cs => some cs
  | l :: ls, c :: cs => if c == l then dropLit ls cs else none
  | _ :: _, [] => none

/-! ## The fuel-based JSON parser (model of `json.loads`) -/

mutual

/-- Parse one JSON value; the `fuel` argument only bounds recursion depth. -/
def parseValue : Nat → List Char → Option (Json × List Char)
  | 0, _ => none
  | fuel + 1, cs =>
    match skipWs cs with
    | [] => none
    | 'n' :: cs' =>
      match dropLit ['u', 'l', 'l'] cs' with
      | some r => some (.null, r)
      | none => none
    | 't' :: cs' =>
      match dropLit ['r', 'u', 'e'] cs' with
      | some r => some (.bool true, r)
      | none => none
    | 'f' :: cs' =>
      match dropLit ['a', 'l', 's', 'e'] cs' with
      | some r => some (.bool false, r)
      | none => none
    | '"' :: cs' =>
      match parseStringBody [] cs' with
      | some (s, r) => some (.str s, r)
      | none => none
    | '[' :: cs' =>
      match skipWs cs' with
      | ']' :: r => some (.arr [], r)
      | cs'' =>
        match parseValue fuel cs'' with
        | some (v, r1) =>
          match parseArrayRest fuel r1 with
          | some (vs, r2) => some (.arr (v :: vs), r2)
          | none => none
        | none => none
    | '\x7b' :: cs' =>
      match skipWs cs' with
      | '\x7d' :: r => some (.obj [], r)
      | cs'' =>
        match parseMember fuel cs'' with
        | some (kv, r1) =>
          match parseObjectRest fuel r1 with
          | some (kvs, r2) => some (.obj (kv :: kvs), r2)
          | none => none
        | none => none
    | c :: cs' => parseNumberLit (c :: cs')

/-- Parse `, value`* `]` after the first array element. -/
def parseArrayRest : Nat → List Char → Option (List Json × List Char)
  | 0, _ => none
  | fuel + 1, cs =>
    match skipWs cs with
    | ']' :: r => some ([], r)
    | ',' :: r =>
      match parseValue fuel r with
      | some (v, r1) =>
        match parseArrayRest fuel r1 with
        | some (vs, r2) => some (v :: vs, r2)
        | none => none
      | none => none
    | _ => none

/-- Parse one `"key": value` object member. -/
def parseMember : Nat → List Char → Option ((String × Json) × List Char)
  | 0, _ => none
  | fuel + 1, cs =>
    match skipWs cs with
    | '"' :: cs' =>
      match parseStringBody [] cs' with
      | some (k, r1) =>
        match skipWs r1 with
        | ':' :: r2 =>
          match parseValue fuel r2 with
          | some (v, r3) => some ((k, v), r3)
          | none => none
        | _ => none
      | none => none
    | _ => none

/-- Parse `, member`* `close-brace` after the first object member. -/
def parseObjectRest : Nat → List Char → Option (List (String × Json) × List Char)
  | 0, _ => none
  | fuel + 1, cs =>
    match skipWs cs with
    | '\x7d' :: r => some ([], r)
    | ',' :: r =>
      match parseMember fuel r with
      | some (kv, r1) =>
        match parseObjectRest fuel r1 with
        | some (kvs, r2) => some (kv :: kvs, r2)
        | none => none
      | none => none
    | _ => none

end

/-- Model of `json.loads`: parse one value and require only trailing
whitespace after it.  The fuel `length + 1` suffices because every unit of
fuel spent consumes at least one input character. -/
def json_loads (s : String) : Option Json :=
  match parseValue (s.data.length + 1) s.data with
  | some (v, rest) => if (skipWs rest).isEmpty then some v else none
  | none => none

example : json_loads "[1, 2]" = some (.arr [.num 1, .num 2]) := by rfl
example : json_loads "  \x7b\"a\": [true, null]\x7d " =
    some (.obj [("a", .arr [.bool true, .null])]) := by rfl
example : json_loads "[1, 2] trailing" = none := by rfl
example : json_loads "-17" = some (.num (-17)) := by rfl

/-! ## The greedy regex spans of the response parser

`re.search(r'\[[\s\S]*\]', response)` matches from the first `[` that has a
later `]` up to the *last* `]` of the whole text (the star is greedy); the
object strategy does the same with braces. -/

/-- Index of the first occurrence of `openC` that is followed, strictly later,
by an occurrence of `closeC` (the leftmost position where the greedy regex can
match). -/
def firstOpenIdx (openC closeC : Char) : List Char → Nat → Option Nat
  | [], _ => none
  | c :: rest, i =>
    if c == openC && rest.contains closeC then some i
    else firstOpenIdx openC closeC rest (i + 1)

/-- Index of the last occurrence of `closeC`. -/
def lastCloseIdx (closeC : Char) : List Char → Nat → Option Nat → Option Nat
  | [], _, acc => acc
  | c :: rest, i, acc =>
    lastCloseIdx closeC rest (i + 1) (if c == closeC then some i else acc)

/-- The substring matched by the greedy `open [\s\S]* close` regex search, if
any. -/
def regexSpan (openC closeC : Char) (s : String) : Option String :=
  match firstOpenIdx openC closeC s.data 0 with
  | none => none
  | some i =>
    match lastCloseIdx closeC s.data 0 none with
    | none => none
    | some j => some (String.mk ((s.data.drop i).take (j + 1 - i)))

example : regexSpan '[' ']' "see [1, 2] here ] end" = some "[1, 2] here ]" := by rfl
example : regexSpan '[' ']' "no array at all" = none := by rfl

/-! ## Response-parsing strategies (`ExtractionAgent._extract_with_llm`) -/

/-- Strategy 3: search for a `\x7b ... \x7d` span, parse it, and wrap a dict in
a one-element list (`[obj] if isinstance(obj, dict) else obj`). -/
def objectStrategy (response : String) : Option Json :=
  match regexSpan '\x7b' '\x7d' response with
  | some sub =>
    match json_loads sub with
    | some (.obj o) => some (.arr [.obj o])
    | some v => some v
    | none => none
  | none => none

/-- The ordered fallback of parse strategies.  A `null` result from strategy 2
is indistinguishable in the source from "no parse yet" (`extracted_data is
None`), so it falls through to strategy 3, exactly as the Python does. -/
def parseResponseValue (response : String) : Option Json :=
  match (match regexSpan '[' ']' response with
         | some sub => json_loads sub
         | none => none) with
  | some v => some v
  | none =>
    match json_loads (pyStrip response) with
    | some .null => objectStrategy response
    | some v => some v
    | none => objectStrategy response

/-- The shape of `extracted_data` after the strategies and the
`isinstance(extracted_data, dict)` wrap: either a Python list, or a stray
scalar that survived strategy 2 unwrapped. -/
inductive ParsedData where
  | list : List Json → ParsedData
  | scalar : Json → ParsedData
deriving Repr

/-- `extracted_data = [extracted_data] if isinstance(extracted_data, dict)`;
a parsed array is already the Python list of its elements. -/
def ensureList : Json → ParsedData
  | .obj o => .list [.obj o]
  | .arr xs => .list xs
  | v => .scalar v

/-! ## Keyword dispatch on the free-text document-type label -/

/-- Python's substring containment `needle in hay`. -/
def strContains (hay needle : String) : Bool :=
  (List.range (hay.data.length + 1)).any
    (fun i => needle.data.isPrefixOf (hay.data.drop i))

example : strContains (pyLower "Project Schedule") "schedule" = true := by rfl
example : strContains "general" "ura" = false := by rfl
example : pyStrip "  x \n" = "x" := by rfl

/-- `"schedule" in document_type.lower() or "project" in ...`. -/
def keywordSchedule (document_type : String) : Bool :=
  strContains (pyLower document_type) "schedule" ||
    strContains (pyLower document_type) "project"

/-- `"cost" in document_type.lower() or "costing" in ...`. -/
def keywordCost (document_type : String) : Bool :=
  strContains (pyLower document_type) "cost" ||
    strContains (pyLower document_type) "costing"

/-- `"ura" in ... or "regulatory" in ... or "gfa" in ...`. -/
def keywordRegulatory (document_type : String) : Bool :=
  strContains (pyLower document_type) "ura" ||
    strContains (pyLower document_type) "regulatory" ||
    strContains (pyLower document_type) "gfa"

/-- Model of `ExtractionAgent._extract_with_llm` (leading underscore dropped).
The LLM collaborator's behaviour on the one `generate` call is the `llm`
argument; `document_text` only feeds the prompt, so it does not influence the
result.  Every failure path of the source returns the empty list: the caught
LLM exception, the blank response, and the all-strategies-failed case. -/
def extract_with_llm (llm : Except String String) (document_text : String)
    (document_type : String) : ParsedData :=
  if keywordSchedule document_type || keywordCost document_type ||
      keywordRegulatory document_type then
    match llm with
    | .error _ => .list []
    | .ok response =>
      if pyStrip response == "" then .list []
      else
        match parseResponseValue response with
        | none => .list []
        | some v => ensureList v
  else .list []

/-! ## Pydantic models (`src/database/models.py`)

Pydantic v1 collects every field error of an item into one `ValidationError`;
the model reports the first failing check instead, which leaves the
accept/reject behaviour identical and only shortens the reported reason
string.  Date coercion is modelled for the ISO `YYYY-MM-DD` string form the
prompts request. -/

/-- A calendar date as pydantic's `date` field stores it. -/
structure SDate where
  year : Nat
  month : Nat
  day : Nat
deriving DecidableEq, Repr

/-- Strict `<` on dates (lexicographic on year, month, day). -/
def SDate.lt (a b : SDate) : Bool :=
  a.year < b.year ||
    (a.year == b.year &&
      (a.month < b.month || (a.month == b.month && a.day < b.day)))

/-- Parse an ISO `YYYY-MM-DD` date string (pydantic's `date` coercion for the
string inputs the pipeline produces). -/
def parseDate (s : String) : Option SDate :=
  match s.data with
  | [y1, y2, y3, y4, '-', m1, m2, '-', d1, d2] =>
    if isDigitChar y1 && isDigitChar y2 && isDigitChar y3 && isDigitChar y4 &&
        isDigitChar m1 && isDigitChar m2 && isDigitChar d1 && isDigitChar d2 then
      let y := digitsVal [y1, y2, y3, y4]
      let m := digitsVal [m1, m2]
      let d := digitsVal [d1, d2]
      if 1 ≤ m && m ≤ 12 && 1 ≤ d && d ≤ 31 then some ⟨y, m, d⟩ else none
    else none
  | _ => none

example : parseDate "2024-01-31" = some ⟨2024, 1, 31⟩ := by rfl
example : parseDate "2024-13-01" = none := by rfl

/-- `ProjectTask` (`models.py`): the typed record for one schedule row. -/
structure ProjectTask where
  task_id : Int
  task_name : String
  duration_days : Int
  start_date : SDate
  finish_date : SDate
deriving DecidableEq, Repr

/-- `CostItem` (`models.py`).  The three `Decimal` fields are modelled as
integers: no claim exercises fractional amounts. -/
structure CostItem where
  item_name : String
  quantity : Int
  unit_price_yen : Int
  total_cost_yen : Int
  cost_type : String
deriving DecidableEq, Repr

/-- `RegulatoryRule` (`models.py`). -/
structure RegulatoryRule where
  rule_id : String
  rule_summary : String
  measurement_basis : String
deriving DecidableEq, Repr

/-- Dictionary lookup on a JSON object's member list (`dict.get`). -/
def getField (fields : List (String × Json)) (key : String) : Option Json :=
  match fields.find? (fun p => p.1 == key) with
  | some p => some p.2
  | none => none

/-- Parse a Python-int literal string (pydantic coerces numeric strings). -/
def parseIntLit (s : String) : Option Int :=
  let (neg, ds) := match s.data with
    | '-' :: r => (true, r)
    | r => (false, r)
  if !ds.isEmpty && ds.all isDigitChar then
    some (if neg then -(digitsVal ds : Int) else (digitsVal ds : Int))
  else none

/-- Pydantic `int` coercion from a JSON-decoded value. -/
def coerceInt : Json → Option Int
  | .num n => some n
  | .str s => parseIntLit s
  | _ => none

/-- Pydantic `str` coercion (numbers are stringified). -/
def coerceStr : Json → Option String
  | .str s => some s
  | .num n => some (toString n)
  | _ => none

/-- Pydantic `date` coercion (ISO string form; see `parseDate`). -/
def coerceDate : Json → Option SDate
  | .str s => parseDate s
  | _ => none

/-- Required field of `int` type: missing or uncoercible raises. -/
def reqInt (fields : List (String × Json)) (key : String) : Except String Int :=
  match getField fields key with
  | none => .error ("field required: " ++ key)
  | some v =>
    match coerceInt v with
    | some n => .ok n
    | none => .error ("value is not a valid integer: " ++ key)

/-- Required field of `str` type. -/
def reqStr (fields : List (String × Json)) (key : String) : Except String String :=
  match getField fields key with
  | none => .error ("field required: " ++ key)
  | some v =>
    match coerceStr v with
    | some s => .ok s
    | none => .error ("str type expected: " ++ key)

/-- Required field of `date` type. -/
def reqDate (fields : List (String × Json)) (key : String) : Except String SDate :=
  match getField fields key with
  | none => .error ("field required: " ++ key)
  | some v =>
    match coerceDate v with
    | some d => .ok d
    | none => .error ("invalid date format: " ++ key)

/-- `ProjectTask.validate_finish_after_start`: runs only when `start_date`
validated (`'start_date' in values`), and rejects `finish_date <
start_date`. -/
def ProjectTask.validate_finish_after_start (v : SDate) (start? : Option SDate) :
    Except String SDate :=
  match start? with
  | some s => if SDate.lt v s then .error "finish_date must be after start_date" else .ok v
  | none => .ok v

/-- `ProjectTask(**item)`: field coercions in declaration order, the `ge=0`
bound on the duration, then the custom finish/start validator. -/
def ProjectTask.fromFields (fields : List (String × Json)) :
    Except String ProjectTask := do
  let tid ← reqInt fields "task_id"
  let name ← reqStr fields "task_name"
  let dur ← reqInt fields "duration_days"
  if dur < 0 then throw "ensure this value is greater than or equal to 0: duration_days"
  let sd ← reqDate fields "start_date"
  let fd0 ← reqDate fields "finish_date"
  let fd ← ProjectTask.validate_finish_after_start fd0 (some sd)
  pure ⟨tid, name, dur, sd, fd⟩

/-- `CostItem.validate_cost_type`: membership in the literal `allowed` list,
returning the value unchanged. -/
def CostItem.validate_cost_type (v : String) : Except String String :=
  if ["Foreign cost", "Local cost", "foreign cost", "local cost"].contains v
  then .ok v
  else .error "cost_type must be one of the allowed literals"

/-- `CostItem(**item)`. -/
def CostItem.fromFields (fields : List (String × Json)) :
    Except String CostItem := do
  let name ← reqStr fields "item_name"
  let q ← reqInt fields "quantity"
  if q < 0 then throw "ensure this value is greater than or equal to 0: quantity"
  let up ← reqInt fields "unit_price_yen"
  if up < 0 then throw "ensure this value is greater than or equal to 0: unit_price_yen"
  let tc ← reqInt fields "total_cost_yen"
  if tc < 0 then throw "ensure this value is greater than or equal to 0: total_cost_yen"
  let ct0 ← reqStr fields "cost_type"
  let ct ← CostItem.validate_cost_type ct0
  pure ⟨name, q, up, tc, ct⟩

/-- `RegulatoryRule(**item)`. -/
def RegulatoryRule.fromFields (fields : List (String × Json)) :
    Except String RegulatoryRule := do
  let rid ← reqStr fields "rule_id"
  let summary ← reqStr fields "rule_summary"
  let basis ← reqStr fields "measurement_basis"
  pure ⟨rid, summary, basis⟩

/-! ## `ExtractionAgent._validate_data` -/

/-- A validated record of any of the three kinds (the `validated_item.dict()`
round-trip of the source is elided: a validated record is kept typed). -/
inductive Rec where
  | task : ProjectTask → Rec
  | cost : CostItem → Rec
  | rule : RegulatoryRule → Rec
deriving DecidableEq, Repr

/-- `item.get('task_id', 'unknown')` rendered into the error f-string. -/
def taskKeyStr (fields : List (String × Json)) : String :=
  match getField fields "task_id" with
  | some v => pyStr v
  | none => "unknown"

/-- `item.get('item_name', 'unknown')`. -/
def costKeyStr (fields : List (String × Json)) : String :=
  match getField fields "item_name" with
  | some v => pyStr v
  | none => "unknown"

/-- `item.get('rule_id', 'unknown')`. -/
def ruleKeyStr (fields : List (String × Json)) : String :=
  match getField fields "rule_id" with
  | some v => pyStr v
  | none => "unknown"

/-- The per-item loop of the schedule branch.  A non-dict item makes
`ProjectTask(**item)` raise a `TypeError`, whose handler then raises an
`AttributeError` on `item.get` — an uncaught, batch-aborting exception,
modelled by the `Except.error` case. -/
def validateTasksLoop : List Json → Except String (List Rec × List String)
  | [] => .ok ([], [])
  | .obj fields :: rest =>
    match ProjectTask.fromFields fields with
    | .ok t =>
      match validateTasksLoop rest with
      | .ok (vd, errs) => .ok (Rec.task t :: vd, errs)
      | .error e => .error e
    | .error msg =>
      match validateTasksLoop rest with
      | .ok (vd, errs) =>
        .ok (vd, ("Validation error for task " ++ taskKeyStr fields ++ ": " ++ msg) :: errs)
      | .error e => .error e
  | _ :: _ => .error "AttributeError: item has no attribute get"

/-- The per-item loop of the cost branch. -/
def validateCostsLoop : List Json → Except String (List Rec × List String)
  | [] => .ok ([], [])
  | .obj fields :: rest =>
    match CostItem.fromFields fields with
    | .ok c =>
      match validateCostsLoop rest with
      | .ok (vd, errs) => .ok (Rec.cost c :: vd, errs)
      | .error e => .error e
    | .error msg =>
      match validateCostsLoop rest with
      | .ok (vd, errs) =>
        .ok (vd, ("Validation error for cost item " ++ costKeyStr fields ++ ": " ++ msg) :: errs)
      | .error e => .error e
  | _ :: _ => .error "AttributeError: item has no attribute get"

/-- The per-item loop of the regulatory branch. -/
def validateRulesLoop : List Json → Except String (List Rec × List String)
  | [] => .ok ([], [])
  | .obj fields :: rest =>
    match RegulatoryRule.fromFields fields with
    | .ok r =>
      match validateRulesLoop rest with
      | .ok (vd, errs) => .ok (Rec.rule r :: vd, errs)
      | .error e => .error e
    | .error msg =>
      match validateRulesLoop rest with
      | .ok (vd, errs) =>
        .ok (vd, ("Validation error for rule " ++ ruleKeyStr fields ++ ": " ++ msg) :: errs)
      | .error e => .error e
  | _ :: _ => .error "AttributeError: item has no attribute get"

/-- Model of `ExtractionAgent._validate_data`.  An empty (or falsy) input
short-circuits to `([], [])`; an unmatched document type runs no loop; a
truthy scalar that reaches a branch makes the `for`/`**` machinery raise a
batch-aborting `TypeError` (or, for strings, an `AttributeError` in the first
item's handler) — both are the `Except.error` case. -/
def validate_data (d : ParsedData) (document_type : String) :
    Except String (List Rec × List String) :=
  match d with
  | .list [] => .ok ([], [])
  | .list xs =>
    if keywordSchedule document_type then validateTasksLoop xs
    else if keywordCost document_type then validateCostsLoop xs
    else if keywordRegulatory document_type then validateRulesLoop xs
    else .ok ([], [])
  | .scalar v =>
    if v.truthy then
      if keywordSchedule document_type || keywordCost document_type ||
          keywordRegulatory document_type then
        .error "TypeError: extracted data is not iterable as mappings"
      else .ok ([], [])
    else .ok ([], [])

/-! ## `ExtractionAgent.extract` -/

/-- The structured result `extract` always returns. -/
structure ExtractResult where
  extracted_data : List Rec
  errors : List String
  success : Bool
deriving DecidableEq, Repr

/-- Model of `ExtractionAgent.extract`.  `use_llm` mirrors the constructor
flag (`_extract_with_rules` is a stub returning `[]`); the outer
`try/except` turns the only in-body exception source (`_validate_data`) into
the single-error failure result. -/
def extract (use_llm : Bool) (llm : Except String String) (document_text : String)
    (document_type : String) : ExtractResult :=
  let data :=
    if use_llm then extract_with_llm llm document_text document_type
    else .list []
  match validate_data data document_type with
  | .ok (vd, errs) => ⟨vd, errs, errs.length == 0⟩
  | .error e => ⟨[], [e], false⟩

example :
    extract true
      (.ok "[\x7b\"task_id\":1,\"task_name\":\"Install CMU Block Walls\",\"duration_days\":30,\"start_date\":\"2024-01-01\",\"finish_date\":\"2024-01-31\"\x7d]")
      "Task ID: 1" "schedule"
      = ⟨[Rec.task ⟨1, "Install CMU Block Walls", 30, ⟨2024, 1, 1⟩, ⟨2024, 1, 31⟩⟩], [], true⟩ := by
  rfl

/-! ## The chunker (`chunk_document_task`, `document_pipeline.py`) -/

/-- `Path(name).name`: the basename after the last `/`. -/
def splitOnChar (sep : Char) : List Char → List (List Char)
  | [] => [[]]
  | c :: rest =>
    match splitOnChar sep rest with
    | [] => [[c]]
    | g :: gs => if c == sep then [] :: g :: gs else (c :: g) :: gs

def pathName (p : String) : String :=
  String.mk ((splitOnChar '/' p.data).getLastD p.data)

/-- `Path(name).stem`: the basename without its last extension. -/
def joinDots : List (List Char) → List Char
  | [] => []
  | [g] => g
  | g :: gs => g ++ '.' :: joinDots gs

def pathStem (p : String) : String :=
  let base := (splitOnChar '/' p.data).getLastD p.data
  match splitOnChar '.' base with
  | [] => String.mk base
  | [_] => String.mk base
  | parts => String.mk (joinDots parts.dropLast)

example : pathName "docs/a/schedule.pdf" = "schedule.pdf" := by rfl
example : pathStem "schedule.pdf" = "schedule" := by rfl

/-- One chunk record as the task builds it (its `metadata` keys
`start_char`/`end_char`/`chunk_size` become fields). -/
structure Chunk where
  chunk_id : String
  document_name : String
  chunk_text : String
  chunk_index : Nat
  start_char : Nat
  end_char : Nat
  chunk_size : Nat
deriving DecidableEq, Repr

/-- The `while start < len(full_text)` loop.  The `fuel` argument is an
embedding artifact: with `chunk_overlap < chunk_size` the window start grows
by `chunk_size - chunk_overlap ≥ 1` each turn, so `full_text.length + 1` units
are enough for the loop to hit its real exit; with `chunk_overlap ≥
chunk_size` the Python loop never terminates and the model's fuel runs out
instead.  `end_char` is `start + chunk_size`, not clamped to the text length,
exactly as the source records it. -/
def chunkLoop (full_text : List Char) (document_name : String)
    (chunk_size chunk_overlap : Nat) : Nat → Nat → Nat → List Chunk
  | 0, _, _ => []
  | fuel + 1, start, chunk_index =>
    if start < full_text.length then
      let e := start + chunk_size
      let chunk_text := (full_text.drop start).take chunk_size
      ⟨pathStem document_name ++ "_chunk_" ++ toString chunk_index,
        document_name, String.mk chunk_text, chunk_index,
        start, e, chunk_text.length⟩
        :: chunkLoop full_text document_name chunk_size chunk_overlap fuel
            (e - chunk_overlap) (chunk_index + 1)
    else []

/-- Model of `chunk_document_task` (the Prefect task body): empty text
short-circuits to `[]`, otherwise the character-window loop runs from
`start = 0`, `chunk_index = 0`. -/
def chunk_document_task (full_text : String) (document_name : String)
    (chunk_size chunk_overlap : Nat) : List Chunk :=
  if full_text.data.isEmpty then []
  else chunkLoop full_text.data document_name chunk_size chunk_overlap
    (full_text.data.length + 1) 0 0

/-! ## The PostgreSQL client (`postgres_client.py`)

A table is the list of its rows (surrogate `id` and timestamp columns
elided).  `insert_project_tasks` upserts on the `task_id` natural key via
`ON CONFLICT DO UPDATE`; `insert_cost_items` is a plain insert. -/

/-- `INSERT ... ON CONFLICT (task_id) DO UPDATE SET <non-key fields>`. -/
def upsertTaskRow (table : List ProjectTask) (t : ProjectTask) : List ProjectTask :=
  if table.any (fun r => r.task_id == t.task_id) then
    table.map (fun r =>
      if r.task_id == t.task_id then
        ⟨r.task_id, t.task_name, t.duration_days, t.start_date, t.finish_date⟩
      else r)
  else table ++ [t]

/-- `PostgreSQLClient.insert_project_tasks` on its success path: the new table
state and the returned `inserted_count`. -/
def insert_project_tasks (table : List ProjectTask) (tasks : List ProjectTask) :
    List ProjectTask × Nat :=
  (tasks.foldl upsertTaskRow table, tasks.length)

/-- `PostgreSQLClient.insert_cost_items` on its success path: a plain row
append per item, no deduplication. -/
def insert_cost_items (table : List CostItem) (items : List CostItem) :
    List CostItem × Nat :=
  (table ++ items, items.length)

/-- The statement loop inside one `get_session` block, with the database's
behaviour on each `session.execute` abstracted by the `writeFails`
collaborator predicate: a failing statement raises, ending the loop. -/
def execTaskStmts (writeFails : ProjectTask → Bool) (table : List ProjectTask) :
    List ProjectTask → Except String (List ProjectTask × Nat)
  | [] => .ok (table, 0)
  | t :: ts =>
    if writeFails t then .error "database write failed"
    else
      match execTaskStmts writeFails (upsertTaskRow table t) ts with
      | .ok (tb, n) => .ok (tb, n + 1)
      | .error e => .error e

/-- `insert_project_tasks` run under the `get_session` context manager: commit
the new state on success, roll back to the original state and re-raise on any
statement failure. -/
def insert_project_tasks_session (writeFails : ProjectTask → Bool)
    (table : List ProjectTask) (tasks : List ProjectTask) :
    List ProjectTask × Except String Nat :=
  match execTaskStmts writeFails table tasks with
  | .ok (tb, n) => (tb, .ok n)
  | .error e => (table, .error e)

/-! ## The document pipeline (`document_pipeline.py`)

Per-document collaborator behaviour is passed in as one bundle: the PDF
parser's final outcome (its Prefect retries already exhausted), the LLM's
reply, the dltHub loader's outcome, the direct-insert fallback's outcome, and
ChromaDB's outcome.  Each is the result of the single call the per-document
flow makes to it. -/

deriving instance DecidableEq for Except

/-- The parse result's payload that the pipeline reads
(`parsed_data["content"]["full_text"]`). -/
structure ParsedDoc where
  full_text : String
deriving DecidableEq, Repr

/-- One document's external-collaborator behaviours. -/
structure Collab where
  parse : Except String ParsedDoc
  use_llm : Bool
  llm : Except String String
  dlt : Except String Unit
  direct : Except String Nat
  chroma : Except String Nat

/-- What `load_to_postgres_task` did: its returned count or raised error, and
how many times the direct-insert fallback path was entered. -/
structure LoadOutcome where
  result : Except String Nat
  fallback_attempts : Nat
deriving DecidableEq, Repr

/-- Model of `load_to_postgres_task`: empty data short-circuits to 0; a
keyword-matched type goes through dltHub and, only on a dltHub exception,
through the single fallback branch (direct insert for schedule/cost kinds,
a bare count of 0 otherwise); an unmatched type loads nothing. -/
def load_to_postgres_task (dlt : Except String Unit) (direct : Except String Nat)
    (data : List Rec) (document_type : String) : LoadOutcome :=
  if data.isEmpty then ⟨.ok 0, 0⟩
  else if keywordSchedule document_type || keywordCost document_type ||
      keywordRegulatory document_type then
    match dlt with
    | .ok _ => ⟨.ok data.length, 0⟩
    | .error _ =>
      if keywordSchedule document_type || keywordCost document_type then
        ⟨direct, 1⟩
      else ⟨.ok 0, 1⟩
  else ⟨.ok 0, 0⟩

/-- A per-document flow result: the success dictionary or the failure
dictionary built in the flow's `except` handler. -/
inductive FlowResult where
  | ok (pdf_path document_type : String) (postgres_records chroma_chunks : Nat)
      (extraction_errors : List String) : FlowResult
  | failed (pdf_path error : String) : FlowResult
deriving DecidableEq, Repr

/-- `r.get("success", False)`. -/
def FlowResult.isOk : FlowResult → Bool
  | .ok _ _ _ _ _ => true
  | .failed _ _ => false

/-- Model of `process_document_flow`: parse, extract, conditionally load to
the record store, chunk, conditionally load to the vector store; any uncaught
exception in a stage becomes the failure result.  The extract stage itself
never raises, so its errors never abort the flow. -/
def process_document_flow (c : Collab) (pdf_path : String)
    (document_type : String) : FlowResult :=
  match c.parse with
  | .error e => .failed pdf_path e
  | .ok parsed =>
    let ex := extract c.use_llm c.llm parsed.full_text document_type
    let load :=
      if ex.extracted_data.isEmpty then LoadOutcome.mk (.ok 0) 0
      else load_to_postgres_task c.dlt c.direct ex.extracted_data document_type
    match load.result with
    | .error e => .failed pdf_path e
    | .ok postgres_count =>
      let document_name := pathName pdf_path
      let chunks := chunk_document_task parsed.full_text document_name 1000 200
      match (if chunks.isEmpty then Except.ok 0 else c.chroma) with
      | .error e => .failed pdf_path e
      | .ok chroma_count =>
        .ok pdf_path document_type postgres_count chroma_count ex.errors

/-- `document_types.get(pdf_file.name, "general")`. -/
def lookupType (document_types : List (String × String)) (name : String) : String :=
  match document_types.find? (fun p => p.1 == name) with
  | some p => p.2
  | none => "general"

/-- Model of `process_all_documents_flow`'s loop: each directory entry is a
(file name, collaborator behaviours) pair; every document is processed
through `process_document_flow`, whose result dictionary is appended
unconditionally. -/
def process_all_documents_flow (docs : List (String × Collab))
    (document_types : List (String × String)) : List FlowResult :=
  docs.map (fun d => process_document_flow d.2 d.1 (lookupType document_types d.1))

/-- The aggregate `successful = sum(1 for r in results if r.get("success",
False))` the directory driver computes over its results. -/
def successfulCount (results : List FlowResult) : Nat :=
  (results.filter FlowResult.isOk).length

/-! # Theorems -/

/-- C1: for every document text, document-type label and LLM behaviour, the
extraction operation returns a structured result (its total return type
carries `extracted_data`, `errors` and `success`; totality models the
never-raises contract), and `success` is true exactly when the `errors` list
is empty. -/
theorem extract_success_iff_no_errors (use_llm : Bool) (llm : Except String String)
    (document_text document_type : String) :
    (extract use_llm llm document_text document_type).success = true ↔
      (extract use_llm llm document_text document_type).errors = [] := by
  unfold extract
  cases h : validate_data
      (if use_llm then extract_with_llm llm document_text document_type
       else ParsedData.list []) document_type with
  | ok p =>
    obtain ⟨vd, errs⟩ := p
    simp [h, List.length_eq_zero]
  | error e => simp [h]

/-- C2 counterexample: an LLM exception (and likewise a blank LLM reply) on a
matched document type yields `errors = []` and `success = true` — the error is
*not* captured in the returned errors list, contrary to the claim. -/
theorem llm_error_not_in_errors_list :
    extract true (.error "connection reset") "doc text" "schedule"
      = ⟨[], [], true⟩
    ∧ extract true (.ok "   ") "doc text" "schedule" = ⟨[], [], true⟩ :=
  ⟨rfl, rfl⟩

/-- C2 amended: when the LLM raises or returns empty/blank output, the
extraction operation returns an empty extracted-data result with an *empty*
errors list and `success = true`; the failure is only logged, and no exception
propagates to the caller. -/
theorem llm_failure_degrades_to_empty_success (llm : Except String String)
    (document_text document_type : String)
    (h : (∃ e, llm = .error e) ∨ ∃ r, llm = .ok r ∧ pyStrip r = "") :
    extract true llm document_text document_type = ⟨[], [], true⟩ := by
  have hdata : extract_with_llm llm document_text document_type = .list [] := by
    unfold extract_with_llm
    rcases h with ⟨e, rfl⟩ | ⟨r, rfl, hr⟩
    · split <;> rfl
    · split
      · simp [hr]
      · rfl
  unfold extract
  simp [hdata, validate_data]

/-- C2 witness: the amended theorem at a concrete failing LLM. -/
theorem llm_failure_degrades_to_empty_success_witness :
    extract true (.error "boom") "text" "cost" = ⟨[], [], true⟩ :=
  llm_failure_degrades_to_empty_success (.error "boom") "text" "cost"
    (Or.inl ⟨"boom", rfl⟩)

/-- C6 counterexample: `"FOREIGN COST"` is a case variant of the enumerated
literal `"Foreign cost"` (their lowercasings agree) yet the validator rejects
it; and the all-lowercase `"foreign cost"`, outside the claimed two-element
set, is accepted. -/
theorem cost_type_case_variant_rejected :
    pyLower "FOREIGN COST" = pyLower "Foreign cost"
    ∧ CostItem.validate_cost_type "FOREIGN COST"
        = .error "cost_type must be one of the allowed literals"
    ∧ CostItem.validate_cost_type "foreign cost" = .ok "foreign cost" :=
  ⟨rfl, rfl, rfl⟩

/-- C6 amended: the cost-category validator accepts exactly the four literals
`"Foreign cost"`, `"Local cost"`, `"foreign cost"`, `"local cost"` (the two
canonical labels in capitalized or all-lowercase form only; no other case
variants), and an accepted value is stored exactly as provided. -/
theorem cost_type_accepts_exactly_four_literals (v : String) :
    ((∃ r, CostItem.validate_cost_type v = .ok r) ↔
      v = "Foreign cost" ∨ v = "Local cost" ∨ v = "foreign cost" ∨ v = "local cost")
    ∧ (∀ r, CostItem.validate_cost_type v = .ok r → r = v) := by
  have hcond : (["Foreign cost", "Local cost", "foreign cost", "local cost"].contains v
        = true)
      ↔ (v = "Foreign cost" ∨ v = "Local cost" ∨ v = "foreign cost" ∨ v = "local cost") := by
    constructor
    · intro h
      simpa using List.mem_of_elem_eq_true h
    · intro h
      apply List.elem_eq_true_of_mem
      simpa using h
  unfold CostItem.validate_cost_type
  by_cases hm : v = "Foreign cost" ∨ v = "Local cost" ∨ v = "foreign cost"
      ∨ v = "local cost"
  · rw [if_pos (hcond.mpr hm)]
    refine ⟨⟨fun _ => hm, fun _ => ⟨v, rfl⟩⟩, ?_⟩
    intro r hr
    injection hr with h
    exact h.symm
  · rw [if_neg (fun hc => hm (hcond.mp hc))]
    refine ⟨⟨?_, fun hv => absurd hv hm⟩, ?_⟩
    · intro ⟨r, hr⟩
      exact Except.noConfusion hr
    · intro r hr
      exact Except.noConfusion hr

/-- C6 witness: the amended theorem applied at `"Local cost"`. -/
theorem cost_type_accepts_exactly_four_literals_witness :
    ∃ r, CostItem.validate_cost_type "Local cost" = .ok r :=
  (cost_type_accepts_exactly_four_literals "Local cost").1.mpr
    (Or.inr (Or.inl rfl))

/-- C7: writing the same ScheduleTask natural key twice (same `task_id`,
changed non-key fields) into an empty table leaves exactly one stored row
carrying the second write's fields; writing the identical CostItem twice
yields two stored rows. -/
theorem task_upsert_idempotent_cost_insert_duplicates :
    (∀ t1 t2 : ProjectTask, t1.task_id = t2.task_id →
        (insert_project_tasks (insert_project_tasks [] [t1]).1 [t2]).1 = [t2])
    ∧ ∀ c : CostItem,
        (insert_cost_items (insert_cost_items [] [c]).1 [c]).1 = [c, c] := by
  constructor
  · intro t1 t2 h
    obtain ⟨i1, n1, d1, s1, f1⟩ := t1
    obtain ⟨i2, n2, d2, s2, f2⟩ := t2
    simp only [ProjectTask.mk.injEq] at h ⊢
    subst h
    simp [insert_project_tasks, upsertTaskRow]
  · intro c
    simp [insert_cost_items]

/-- C7 witness: the theorem at a concrete re-ingested task and cost item. -/
theorem task_upsert_idempotent_cost_insert_duplicates_witness :
    (insert_project_tasks
        (insert_project_tasks [] [⟨1, "Old name", 5, ⟨2024, 1, 1⟩, ⟨2024, 1, 6⟩⟩]).1
        [⟨1, "New name", 7, ⟨2024, 1, 1⟩, ⟨2024, 1, 8⟩⟩]).1
      = [⟨1, "New name", 7, ⟨2024, 1, 1⟩, ⟨2024, 1, 8⟩⟩]
    ∧ (insert_cost_items
        (insert_cost_items [] [⟨"Bearing Pile", 736, 79000, 58159800, "Foreign cost"⟩]).1
        [⟨"Bearing Pile", 736, 79000, 58159800, "Foreign cost"⟩]).1
      = [⟨"Bearing Pile", 736, 79000, 58159800, "Foreign cost"⟩,
         ⟨"Bearing Pile", 736, 79000, 58159800, "Foreign cost"⟩] :=
  ⟨task_upsert_idempotent_cost_insert_duplicates.1 _ _ rfl,
   task_upsert_idempotent_cost_insert_duplicates.2 _⟩

/-- Helper: when no statement fails, the session's loop commits the fold of
the upserts and counts every task. -/
theorem execTaskStmts_ok (writeFails : ProjectTask → Bool) :
    ∀ (tasks : List ProjectTask) (table : List ProjectTask),
      (∀ t ∈ tasks, writeFails t = false) →
      execTaskStmts writeFails table tasks
        = .ok (tasks.foldl upsertTaskRow table, tasks.length)
  | [], table, h => rfl
  | t :: ts, table, h => by
    have ht : writeFails t = false := h t (by simp)
    have ih := execTaskStmts_ok writeFails ts (upsertTaskRow table t)
      (fun x hx => h x (by simp [hx]))
    simp [execTaskStmts, ht, ih]

/-- Helper: any failing statement makes the session's loop raise. -/
theorem execTaskStmts_err (writeFails : ProjectTask → Bool) :
    ∀ (tasks : List ProjectTask) (table : List ProjectTask),
      (∃ t ∈ tasks, writeFails t = true) →
      ∃ e, execTaskStmts writeFails table tasks = .error e
  | [], table, h => by simp at h
  | t :: ts, table, h => by
    by_cases ht : writeFails t = true
    · exact ⟨"database write failed", by simp [execTaskStmts, ht]⟩
    · obtain ⟨x, hx, hfx⟩ := h
      rcases List.mem_cons.mp hx with rfl | hx'
      · exact absurd hfx ht
      · obtain ⟨e, he⟩ := execTaskStmts_err writeFails ts (upsertTaskRow table t)
          ⟨x, hx', hfx⟩
        refine ⟨e, ?_⟩
        simp [execTaskStmts, ht, he]

/-- C8: over one `get_session` block, a batch insert is all-or-nothing: if any
single record's write fails the table is left exactly as before (rollback) and
the error is re-raised; if no write fails the committed state is the fold of
the upserts and the returned count equals the batch length. -/
theorem batch_all_or_nothing (writeFails : ProjectTask → Bool)
    (table tasks : List ProjectTask) :
    ((∀ t ∈ tasks, writeFails t = false) →
        insert_project_tasks_session writeFails table tasks
          = ((insert_project_tasks table tasks).1, .ok tasks.length))
    ∧ ((∃ t ∈ tasks, writeFails t = true) →
        (insert_project_tasks_session writeFails table tasks).1 = table
          ∧ ∃ e, (insert_project_tasks_session writeFails table tasks).2 = .error e) := by
  constructor
  · intro h
    have := execTaskStmts_ok writeFails tasks table h
    simp [insert_project_tasks_session, this, insert_project_tasks]
  · intro h
    obtain ⟨e, he⟩ := execTaskStmts_err writeFails tasks table h
    constructor
    · simp [insert_project_tasks_session, he]
    · exact ⟨e, by simp [insert_project_tasks_session, he]⟩

/-- C8 witness: the theorem at a concrete two-task batch, once with no
failures (count 2 returned) and once with the second write failing (state
rolled back to the empty table). -/
theorem batch_all_or_nothing_witness :
    insert_project_tasks_session (fun _ => false) []
        [⟨1, "A", 1, ⟨2024, 1, 1⟩, ⟨2024, 1, 2⟩⟩, ⟨2, "B", 1, ⟨2024, 1, 1⟩, ⟨2024, 1, 2⟩⟩]
      = ([⟨1, "A", 1, ⟨2024, 1, 1⟩, ⟨2024, 1, 2⟩⟩, ⟨2, "B", 1, ⟨2024, 1, 1⟩, ⟨2024, 1, 2⟩⟩],
          .ok 2)
    ∧ (insert_project_tasks_session (fun t => t.task_id == 2) []
        [⟨1, "A", 1, ⟨2024, 1, 1⟩, ⟨2024, 1, 2⟩⟩, ⟨2, "B", 1, ⟨2024, 1, 1⟩, ⟨2024, 1, 2⟩⟩]).1
      = [] := by
  constructor
  · have := (batch_all_or_nothing (fun _ => false) []
        [⟨1, "A", 1, ⟨2024, 1, 1⟩, ⟨2024, 1, 2⟩⟩, ⟨2, "B", 1, ⟨2024, 1, 1⟩, ⟨2024, 1, 2⟩⟩]).1
      (by intro t ht; rfl)
    simpa using this
  · exact ((batch_all_or_nothing (fun t => t.task_id == 2) []
        [⟨1, "A", 1, ⟨2024, 1, 1⟩, ⟨2024, 1, 2⟩⟩, ⟨2, "B", 1, ⟨2024, 1, 1⟩, ⟨2024, 1, 2⟩⟩]).2
      ⟨⟨2, "B", 1, ⟨2024, 1, 1⟩, ⟨2024, 1, 2⟩⟩, by simp, by rfl⟩).1

/-- C3 counterexample: a text containing the valid embedded JSON array
`[1, 2]` on which the Response Parser extracts nothing: the greedy bracket
span runs to the *last* `]` of the whole blob, which breaks the parse, and
the remaining strategies also fail. -/
theorem embedded_array_not_extracted :
    ("see [1, 2] here ] end" : String) = "see " ++ "[1, 2]" ++ " here ] end"
    ∧ json_loads "[1, 2]" = some (.arr [.num 1, .num 2])
    ∧ regexSpan '[' ']' "see [1, 2] here ] end" = some "[1, 2] here ]"
    ∧ extract_with_llm (.ok "see [1, 2] here ] end") "doc" "schedule" = .list []
    ∧ ParsedData.list ([] : List Json) ≠ ParsedData.list [.num 1, .num 2] := by
  refine ⟨by decide, rfl, rfl, rfl, ?_⟩
  intro h
  simp at h

/-- C3 amended: whenever the greedy first-`[`-to-last-`]` span of the response
parses as a JSON array, the Response Parser returns exactly that array's
elements, ignoring all surrounding prose, and this array-search strategy is
decided before the whole-text and object strategies are consulted (their
outcomes cannot influence the result). -/
theorem array_strategy_first_and_exact (response sub : String) (xs : List Json)
    (document_text document_type : String)
    (hdt : keywordSchedule document_type = true)
    (hspan : regexSpan '[' ']' response = some sub)
    (hparse : json_loads sub = some (.arr xs))
    (hblank : (pyStrip response == "") = false) :
    parseResponseValue response = some (.arr xs)
    ∧ extract_with_llm (.ok response) document_text document_type = .list xs := by
  have h1 : parseResponseValue response = some (.arr xs) := by
    simp only [parseResponseValue, hspan, hparse]
  refine ⟨h1, ?_⟩
  unfold extract_with_llm
  simp [hdt, hblank, h1, ensureList]

/-- C3 witness: the amended theorem on a response wrapping the array in
prose without stray brackets. -/
theorem array_strategy_first_and_exact_witness :
    parseResponseValue "Here is the JSON: [1, 2] as requested"
      = some (.arr [.num 1, .num 2]) :=
  (array_strategy_first_and_exact "Here is the JSON: [1, 2] as requested"
    "[1, 2]" [.num 1, .num 2] "doc" "schedule" rfl rfl rfl rfl).1

/-- Whether a JSON value is a dict. -/
def Json.isObj : Json → Bool
  | .obj _ => true
  | _ => false

/-- The valid records an all-dict schedule batch accumulates, item by item. -/
def taskOutputs : List Json → List Rec
  | [] => []
  | .obj fields :: rest =>
    match ProjectTask.fromFields fields with
    | .ok t => Rec.task t :: taskOutputs rest
    | .error _ => taskOutputs rest
  | _ :: rest => taskOutputs rest

/-- The error strings an all-dict schedule batch accumulates, item by item. -/
def taskErrors : List Json → List String
  | [] => []
  | .obj fields :: rest =>
    match ProjectTask.fromFields fields with
    | .ok _ => taskErrors rest
    | .error msg =>
      ("Validation error for task " ++ taskKeyStr fields ++ ": " ++ msg) :: taskErrors rest
  | _ :: rest => taskErrors rest

/-- Helper: on a batch of dict items the schedule loop never aborts and
returns exactly the accumulated valid records and error strings. -/
theorem validateTasksLoop_eq_of_objs :
    ∀ xs : List Json, (∀ x ∈ xs, x.isObj = true) →
      validateTasksLoop xs = .ok (taskOutputs xs, taskErrors xs)
  | [], _ => rfl
  | x :: rest, h => by
    have hx : x.isObj = true := h x (by simp)
    have ih := validateTasksLoop_eq_of_objs rest (fun y hy => h y (by simp [hy]))
    cases x with
    | obj fields =>
      cases hf : ProjectTask.fromFields fields with
      | ok t => simp [validateTasksLoop, taskOutputs, taskErrors, hf, ih]
      | error msg => simp [validateTasksLoop, taskOutputs, taskErrors, hf, ih]
    | null => simp [Json.isObj] at hx
    | bool b => simp [Json.isObj] at hx
    | num n => simp [Json.isObj] at hx
    | str s => simp [Json.isObj] at hx
    | arr l => simp [Json.isObj] at hx

/-- Helper: the accumulated outputs and errors distribute over batch
concatenation. -/
theorem taskOutputs_errors_append (xs ys : List Json) :
    taskOutputs (xs ++ ys) = taskOutputs xs ++ taskOutputs ys
    ∧ taskErrors (xs ++ ys) = taskErrors xs ++ taskErrors ys := by
  induction xs with
  | nil => simp [taskOutputs, taskErrors]
  | cons x rest ih =>
    cases x with
    | obj fields =>
      cases hf : ProjectTask.fromFields fields with
      | ok t => simp [taskOutputs, taskErrors, hf, ih.1, ih.2]
      | error msg => simp [taskOutputs, taskErrors, hf, ih.1, ih.2]
    | null => simpa [taskOutputs, taskErrors] using ih
    | bool b => simpa [taskOutputs, taskErrors] using ih
    | num n => simpa [taskOutputs, taskErrors] using ih
    | str s => simpa [taskOutputs, taskErrors] using ih
    | arr l => simpa [taskOutputs, taskErrors] using ih

/-- C4: in a schedule batch of dict candidates, a candidate whose finish date
is strictly before its start date (all its fields otherwise coercible) is
rejected: it contributes nothing to the valid-output sequence, the error
string built from the item's `task_id` (via `item.get('task_id', 'unknown')`)
is appended in place, and the rest of the batch is still validated on both
sides; moreover a candidate with no `task_id` key is reported as
`"unknown"`. -/
theorem invalid_finish_date_rejected_batch_continues
    (pre post : List Json) (fields : List (String × Json)) (document_type : String)
    (hdt : keywordSchedule document_type = true)
    (hpre : ∀ x ∈ pre, x.isObj = true) (hpost : ∀ x ∈ post, x.isObj = true)
    (tid : Int) (name : String) (dur : Int) (sd fd : SDate)
    (hid : reqInt fields "task_id" = .ok tid)
    (hname : reqStr fields "task_name" = .ok name)
    (hdur : reqInt fields "duration_days" = .ok dur) (hdur0 : ¬dur < 0)
    (hsd : reqDate fields "start_date" = .ok sd)
    (hfd : reqDate fields "finish_date" = .ok fd)
    (hlt : SDate.lt fd sd = true) :
    validate_data (.list (pre ++ Json.obj fields :: post)) document_type
      = .ok (taskOutputs pre ++ taskOutputs post,
          taskErrors pre
            ++ ("Validation error for task " ++ taskKeyStr fields ++ ": "
                ++ "finish_date must be after start_date") :: taskErrors post)
    ∧ (∀ fs : List (String × Json), getField fs "task_id" = none →
        taskKeyStr fs = "unknown") := by
  have hbad : ProjectTask.fromFields fields
      = .error "finish_date must be after start_date" := by
    simp [ProjectTask.fromFields, hid, hname, hdur, hdur0, hsd, hfd,
      ProjectTask.validate_finish_after_start, hlt, Bind.bind, Except.bind,
      Functor.map, Except.map, Pure.pure, Except.pure]
  have hall : ∀ x ∈ pre ++ Json.obj fields :: post, x.isObj = true := by
    intro x hx
    rcases List.mem_append.mp hx with hx1 | hx2
    · exact hpre x hx1
    · rcases List.mem_cons.mp hx2 with rfl | hx3
      · rfl
      · exact hpost x hx3
  have hloop := validateTasksLoop_eq_of_objs (pre ++ Json.obj fields :: post) hall
  have hout := taskOutputs_errors_append pre (Json.obj fields :: post)
  have hvd : validate_data (.list (pre ++ Json.obj fields :: post)) document_type
      = validateTasksLoop (pre ++ Json.obj fields :: post) := by
    cases pre with
    | nil => simp [validate_data, hdt]
    | cons p ps => simp [validate_data, hdt]
  refine ⟨?_, ?_⟩
  · rw [hvd, hloop, hout.1, hout.2]
    simp [taskOutputs, taskErrors, hbad]
  · intro fs hfs
    simp [taskKeyStr, hfs]

/-- C4 witness: the theorem at a concrete batch — one valid task, then a task
whose finish date (2024-05-01) precedes its start date (2024-05-10): the valid
task survives and the bad one is reported under its id 7. -/
theorem invalid_finish_date_rejected_batch_continues_witness :
    validate_data
        (.list
          [Json.obj [("task_id", .num 3), ("task_name", .str "Excavate"),
            ("duration_days", .num 5), ("start_date", .str "2024-04-01"),
            ("finish_date", .str "2024-04-06")],
           Json.obj [("task_id", .num 7), ("task_name", .str "Pour Slab"),
            ("duration_days", .num 3), ("start_date", .str "2024-05-10"),
            ("finish_date", .str "2024-05-01")]])
        "schedule"
      = .ok ([Rec.task ⟨3, "Excavate", 5, ⟨2024, 4, 1⟩, ⟨2024, 4, 6⟩⟩],
          ["Validation error for task 7: finish_date must be after start_date"]) := by
  have h := (invalid_finish_date_rejected_batch_continues
    [Json.obj [("task_id", .num 3), ("task_name", .str "Excavate"),
      ("duration_days", .num 5), ("start_date", .str "2024-04-01"),
      ("finish_date", .str "2024-04-06")]]
    []
    [("task_id", .num 7), ("task_name", .str "Pour Slab"),
      ("duration_days", .num 3), ("start_date", .str "2024-05-10"),
      ("finish_date", .str "2024-05-01")]
    "schedule" rfl (by simp [Json.isObj]) (by simp)
    7 "Pour Slab" 3 ⟨2024, 5, 10⟩ ⟨2024, 5, 1⟩
    rfl rfl rfl (by decide) rfl rfl rfl).1
  simpa [taskOutputs, taskErrors, taskKeyStr, getField, pyStr] using h

/-- The window starts the chunk loop generates: they depend only on the text
length, not its characters. -/
def chunkStartsOnly (len chunk_size chunk_overlap : Nat) : Nat → Nat → List Nat
  | 0, _ => []
  | fuel + 1, start =>
    if start < len then
      start :: chunkStartsOnly len chunk_size chunk_overlap fuel
        (start + chunk_size - chunk_overlap)
    else []

/-- Helper: the loop's chunk starts are `chunkStartsOnly` of the text
length. -/
theorem chunkLoop_map_start (full_text : List Char) (document_name : String)
    (chunk_size chunk_overlap : Nat) :
    ∀ (fuel start idx : Nat),
      (chunkLoop full_text document_name chunk_size chunk_overlap fuel start idx).map
          Chunk.start_char
        = chunkStartsOnly full_text.length chunk_size chunk_overlap fuel start
  | 0, start, idx => rfl
  | fuel + 1, start, idx => by
    by_cases h : start < full_text.length
    · simp [chunkLoop, chunkStartsOnly, h,
        chunkLoop_map_start full_text document_name chunk_size chunk_overlap fuel]
    · simp [chunkLoop, chunkStartsOnly, h]

/-- Helper: a nonempty loop result's head chunk starts at the loop's current
window start. -/
theorem chunkLoop_head_start (full_text : List Char) (document_name : String)
    (chunk_size chunk_overlap : Nat) :
    ∀ (fuel start idx : Nat) (c : Chunk) (l : List Chunk),
      chunkLoop full_text document_name chunk_size chunk_overlap fuel start idx
        = c :: l →
      c.start_char = start
  | 0, start, idx, c, l, h => by simp [chunkLoop] at h
  | fuel + 1, start, idx, c, l, h => by
    by_cases hs : start < full_text.length
    · simp only [chunkLoop, hs, if_true] at h
      rw [← (List.cons.injEq ..).mp h |>.1]
    · simp [chunkLoop, hs] at h

/-- Helper: every chunk after the first starts at the previous chunk's
(uncapped) `end_char` minus the overlap. -/
theorem chunkLoop_chain (full_text : List Char) (document_name : String)
    (chunk_size chunk_overlap : Nat) :
    ∀ (fuel start idx : Nat),
      List.Chain' (fun a b => b.start_char = a.end_char - chunk_overlap)
        (chunkLoop full_text document_name chunk_size chunk_overlap fuel start idx)
  | 0, start, idx => by simp [chunkLoop]
  | fuel + 1, start, idx => by
    by_cases hs : start < full_text.length
    · have htail := chunkLoop_chain full_text document_name chunk_size chunk_overlap
        fuel (start + chunk_size - chunk_overlap) (idx + 1)
      simp only [chunkLoop, hs, if_true]
      apply List.chain'_cons'.mpr
      refine ⟨?_, htail⟩
      intro y hy
      cases hl : chunkLoop full_text document_name chunk_size chunk_overlap fuel
          (start + chunk_size - chunk_overlap) (idx + 1) with
      | nil => rw [hl] at hy; simp at hy
      | cons c l =>
        rw [hl] at hy
        simp only [List.head?, Option.mem_def, Option.some.injEq] at hy
        have hc := chunkLoop_head_start full_text document_name chunk_size
          chunk_overlap fuel (start + chunk_size - chunk_overlap) (idx + 1) c l hl
        rw [hy] at hc
        simpa using hc
    · simp [chunkLoop, hs]

/-- Helper: any 2500-character text chunked with size 1000 and overlap 200
yields windows starting at 0, 800, 1600 and 2400. -/
theorem chunk_starts_len2500 (text name : String) (h : text.length = 2500) :
    (chunk_document_task text name 1000 200).map Chunk.start_char
      = [0, 800, 1600, 2400] := by
  have hlen : text.data.length = 2500 := h
  have hne : text.data.isEmpty = false := by
    cases hd : text.data with
    | nil => rw [hd] at hlen; simp at hlen
    | cons c cs => rfl
  unfold chunk_document_task
  simp only [hne, Bool.false_eq_true, if_false]
  rw [chunkLoop_map_start, hlen]
  decide

/-- C5 counterexample: the claim's own scenario — a 2500-character document,
chunk size 1000, overlap 200 — yields 4 chunks, not 3, and the start
positions are not `[0, 800, 1600]`. -/
theorem chunk_2500_yields_four_chunks :
    (chunk_document_task (String.mk (List.replicate 2500 'a')) "doc.pdf" 1000 200).length
      = 4
    ∧ (chunk_document_task (String.mk (List.replicate 2500 'a')) "doc.pdf" 1000 200).map
        Chunk.start_char ≠ [0, 800, 1600] := by
  have h := chunk_starts_len2500 (String.mk (List.replicate 2500 'a')) "doc.pdf"
    (by rw [String.length_mk, List.length_replicate])
  constructor
  · have hlen := congrArg List.length h
    rw [List.length_map] at hlen
    exact hlen
  · rw [h]
    decide

/-- C5 amended: chunking a 2500-character document with chunk size 1000 and
overlap 200 yields exactly 4 chunks with window starts 0, 800, 1600 and 2400;
for every chunk after the first, its window start equals the previous
window's (uncapped) end minus the overlap; and empty text yields an empty
chunk sequence rather than an error. -/
theorem chunk_boundary_arithmetic :
    (∀ text name : String, text.length = 2500 →
        (chunk_document_task text name 1000 200).map Chunk.start_char
          = [0, 800, 1600, 2400])
    ∧ (∀ (text name : String) (chunk_size chunk_overlap : Nat),
        List.Chain' (fun a b => b.start_char = a.end_char - chunk_overlap)
          (chunk_document_task text name chunk_size chunk_overlap))
    ∧ (∀ (name : String) (chunk_size chunk_overlap : Nat),
        chunk_document_task "" name chunk_size chunk_overlap = []) := by
  refine ⟨chunk_starts_len2500, ?_, ?_⟩
  · intro text name chunk_size chunk_overlap
    unfold chunk_document_task
    by_cases he : text.data.isEmpty = true
    · simp [he]
    · simp only [he, if_false]
      exact chunkLoop_chain text.data name chunk_size chunk_overlap
        (text.data.length + 1) 0 0
  · intro name chunk_size chunk_overlap
    rfl

/-- C5 witness: the amended theorem's 2500-character conjunct at a concrete
2500-character text, and its empty-text conjunct at concrete sizes. -/
theorem chunk_boundary_arithmetic_witness :
    (chunk_document_task (String.mk (List.replicate 2500 'a')) "schedule.pdf" 1000 200).map
        Chunk.start_char = [0, 800, 1600, 2400]
    ∧ chunk_document_task "" "schedule.pdf" 1000 200 = [] :=
  ⟨chunk_boundary_arithmetic.1 (String.mk (List.replicate 2500 'a')) "schedule.pdf"
      (by rw [String.length_mk, List.length_replicate]),
   chunk_boundary_arithmetic.2.2 "schedule.pdf" 1000 200⟩

/-- A canonical well-formed schedule LLM response used by concrete pipeline
scenarios. -/
def scheduleLlmResponse : String :=
  "[\x7b\"task_id\":1,\"task_name\":\"Install CMU Block Walls\",\"duration_days\":30,\"start_date\":\"2024-01-01\",\"finish_date\":\"2024-01-31\"\x7d]"

/-- C9 counterexample: a schedule document whose extraction succeeds but whose
dltHub load *and* direct-insert fallback both raise: the per-document flow
returns the failure result — the record-store count does not degrade to 0 and
the chunk/vector-store stages do not run, although the document text had a
chunk's worth of content. -/
theorem fallback_failure_aborts_flow :
    process_document_flow
        ⟨.ok ⟨"Task ID: 1, Install CMU Block Walls"⟩, true, .ok scheduleLlmResponse,
          .error "dlt unavailable", .error "db down", .ok 1⟩
        "docs/schedule.pdf" "schedule"
      = .failed "docs/schedule.pdf" "db down"
    ∧ chunk_document_task "Task ID: 1, Install CMU Block Walls" "schedule.pdf"
        1000 200 ≠ [] := by
  constructor
  · rfl
  · decide

/-- C9 amended: the record-store load stage is attempted only when extraction
yielded at least one validated record (the dlt and direct collaborators cannot
influence the flow otherwise); on a dltHub exception the pipeline makes
exactly one fallback attempt via the direct insert path (none on dltHub
success); if the fallback completes, the flow survives to the chunk and
vector-store stages; but if the fallback itself raises, the document flow
aborts with a failure result instead of degrading to a zero count. -/
theorem record_store_guard_and_single_fallback :
    (∀ (p : ParsedDoc) (u : Bool) (llm : Except String String)
        (d d' : Except String Unit) (di di' ch : Except String Nat)
        (path dt : String),
      (extract u llm p.full_text dt).extracted_data = [] →
      process_document_flow ⟨.ok p, u, llm, d, di, ch⟩ path dt
        = process_document_flow ⟨.ok p, u, llm, d', di', ch⟩ path dt)
    ∧ (∀ (e : String) (di : Except String Nat) (data : List Rec) (dt : String),
        data ≠ [] →
        (keywordSchedule dt || keywordCost dt || keywordRegulatory dt) = true →
        (load_to_postgres_task (.error e) di data dt).fallback_attempts = 1)
    ∧ (∀ (di : Except String Nat) (data : List Rec) (dt : String),
        (load_to_postgres_task (.ok ()) di data dt).fallback_attempts = 0)
    ∧ (∀ (p : ParsedDoc) (u : Bool) (llm : Except String String) (e : String)
        (n m : Nat) (path dt : String),
        (extract u llm p.full_text dt).extracted_data ≠ [] →
        (keywordSchedule dt || keywordCost dt) = true →
        (process_document_flow ⟨.ok p, u, llm, .error e, .ok n, .ok m⟩ path dt).isOk
          = true)
    ∧ (∀ (p : ParsedDoc) (u : Bool) (llm : Except String String) (e msg : String)
        (m : Nat) (path dt : String),
        (extract u llm p.full_text dt).extracted_data ≠ [] →
        (keywordSchedule dt || keywordCost dt) = true →
        process_document_flow ⟨.ok p, u, llm, .error e, .error msg, .ok m⟩ path dt
          = .failed path msg) := by
  have hisEmpty : ∀ l : List Rec, l ≠ [] → l.isEmpty = false := by
    intro l hl
    cases l with
    | nil => exact absurd rfl hl
    | cons x xs => rfl
  have hor3 : ∀ dt : String, (keywordSchedule dt || keywordCost dt) = true →
      (keywordSchedule dt || keywordCost dt || keywordRegulatory dt) = true := by
    intro dt h
    rcases Bool.or_eq_true_iff.mp h with h1 | h1 <;> simp [h1]
  refine ⟨?_, ?_, ?_, ?_, ?_⟩
  · intro p u llm d d' di di' ch path dt h
    have hie : (extract u llm p.full_text dt).extracted_data.isEmpty = true := by
      rw [h]
      rfl
    simp [process_document_flow, hie]
  · intro e di data dt hne hkw
    have hie := hisEmpty data hne
    by_cases h2 : (keywordSchedule dt || keywordCost dt) = true
    · simp [load_to_postgres_task, hie, hkw, h2]
    · have hreg : keywordRegulatory dt = true := by
        rcases Bool.or_eq_true_iff.mp hkw with h | h
        · exact absurd h h2
        · exact h
      simp [load_to_postgres_task, hie, hkw, h2, hreg]
  · intro di data dt
    by_cases hie : data.isEmpty = true
    · simp [load_to_postgres_task, hie]
    · by_cases hkw : (keywordSchedule dt || keywordCost dt || keywordRegulatory dt)
          = true
      · simp [load_to_postgres_task, hie, hkw]
      · simp [load_to_postgres_task, hie, hkw]
  · intro p u llm e n m path dt hne hkw2
    have hie := hisEmpty _ hne
    have h3 := hor3 dt hkw2
    simp only [process_document_flow, hie, Bool.false_eq_true, if_false,
      load_to_postgres_task, h3, if_true, hkw2]
    cases hc : (chunk_document_task p.full_text (pathName path) 1000 200).isEmpty <;>
      simp [hc, FlowResult.isOk]
  · intro p u llm e msg m path dt hne hkw2
    have hie := hisEmpty _ hne
    have h3 := hor3 dt hkw2
    simp [process_document_flow, hie, load_to_postgres_task, h3, hkw2]

/-- C9 witness: the amended theorem's conjuncts at a concrete schedule
document — the guard with an empty extraction, one fallback attempt on a
dltHub error, and the surviving flow when the direct fallback returns 1. -/
theorem record_store_guard_and_single_fallback_witness :
    process_document_flow
        ⟨.ok ⟨"text"⟩, true, .ok "no json", .error "dlt down", .ok 5, .ok 9⟩
        "a.pdf" "schedule"
      = process_document_flow
          ⟨.ok ⟨"text"⟩, true, .ok "no json", .ok (), .error "db down", .ok 9⟩
          "a.pdf" "schedule"
    ∧ (load_to_postgres_task (.error "dlt down") (.ok 5)
        [Rec.task ⟨1, "T", 1, ⟨2024, 1, 1⟩, ⟨2024, 1, 2⟩⟩] "schedule").fallback_attempts
      = 1
    ∧ (process_document_flow
        ⟨.ok ⟨"Task ID: 1, Install CMU Block Walls"⟩, true, .ok scheduleLlmResponse,
          .error "dlt down", .ok 1, .ok 1⟩
        "docs/schedule.pdf" "schedule").isOk = true :=
  ⟨record_store_guard_and_single_fallback.1 ⟨"text"⟩ true (.ok "no json")
      (.error "dlt down") (.ok ()) (.ok 5) (.error "db down") (.ok 9)
      "a.pdf" "schedule" rfl,
   record_store_guard_and_single_fallback.2.1 "dlt down" (.ok 5)
      [Rec.task ⟨1, "T", 1, ⟨2024, 1, 1⟩, ⟨2024, 1, 2⟩⟩] "schedule"
      (by decide) rfl,
   record_store_guard_and_single_fallback.2.2.2.1 ⟨"Task ID: 1, Install CMU Block Walls"⟩
      true (.ok scheduleLlmResponse) "dlt down" 1 1 "docs/schedule.pdf" "schedule"
      (by decide) rfl⟩

/-- C10: the directory driver processes documents in full isolation: for any
three documents where the middle one's parse stage has failed (retries
exhausted) and the outer two process successfully, it returns exactly three
result entries — the outer two successful, the middle one a failed-result
entry carrying the error string — and the aggregate successful-count it
computes is 2; a filename absent from the type mapping falls back to type
`"general"`, for which extraction returns the empty success result rather
than an error. -/
theorem directory_isolation_three_docs
    (n1 n2 n3 : String) (c1 c2 c3 : Collab) (m : List (String × String)) (e : String)
    (h2 : c2.parse = .error e)
    (h1 : (process_document_flow c1 n1 (lookupType m n1)).isOk = true)
    (h3 : (process_document_flow c3 n3 (lookupType m n3)).isOk = true) :
    process_all_documents_flow [(n1, c1), (n2, c2), (n3, c3)] m
      = [process_document_flow c1 n1 (lookupType m n1),
         .failed n2 e,
         process_document_flow c3 n3 (lookupType m n3)]
    ∧ (process_all_documents_flow [(n1, c1), (n2, c2), (n3, c3)] m).length = 3
    ∧ successfulCount (process_all_documents_flow [(n1, c1), (n2, c2), (n3, c3)] m) = 2
    ∧ (∀ name, m.find? (fun p => p.1 == name) = none → lookupType m name = "general")
    ∧ (∀ (u : Bool) (llm : Except String String) (txt : String),
        extract u llm txt "general" = ⟨[], [], true⟩) := by
  have hflow2 : process_document_flow c2 n2 (lookupType m n2) = .failed n2 e := by
    unfold process_document_flow
    rw [h2]
  have hmap : process_all_documents_flow [(n1, c1), (n2, c2), (n3, c3)] m
      = [process_document_flow c1 n1 (lookupType m n1),
         .failed n2 e,
         process_document_flow c3 n3 (lookupType m n3)] := by
    simp [process_all_documents_flow, hflow2]
  refine ⟨hmap, ?_, ?_, ?_, ?_⟩
  · rw [hmap]
    rfl
  · rw [hmap]
    cases hr1 : process_document_flow c1 n1 (lookupType m n1) with
    | failed a b =>
      rw [hr1] at h1
      simp [FlowResult.isOk] at h1
    | ok a b c d f =>
      cases hr3 : process_document_flow c3 n3 (lookupType m n3) with
      | failed a' b' =>
        rw [hr3] at h3
        simp [FlowResult.isOk] at h3
      | ok a' b' c' d' f' =>
        simp [successfulCount, FlowResult.isOk]
  · intro name hname
    simp [lookupType, hname]
  · intro u llm txt
    cases u <;> rfl

/-- C10 witness: the theorem at a concrete directory of three documents whose
middle parse fails after retries; the two healthy documents use an unmapped
name, exercising the `"general"` fallback. -/
theorem directory_isolation_three_docs_witness :
    successfulCount
        (process_all_documents_flow
          [("a.pdf", ⟨.ok ⟨"hello world"⟩, true, .ok "", .ok (), .ok 0, .ok 1⟩),
           ("b.pdf", ⟨.error "Failed to parse PDF: b.pdf", true, .ok "", .ok (),
              .ok 0, .ok 1⟩),
           ("c.pdf", ⟨.ok ⟨"hello world"⟩, true, .ok "", .ok (), .ok 0, .ok 1⟩)]
          []) = 2
    ∧ (process_all_documents_flow
          [("a.pdf", ⟨.ok ⟨"hello world"⟩, true, .ok "", .ok (), .ok 0, .ok 1⟩),
           ("b.pdf", ⟨.error "Failed to parse PDF: b.pdf", true, .ok "", .ok (),
              .ok 0, .ok 1⟩),
           ("c.pdf", ⟨.ok ⟨"hello world"⟩, true, .ok "", .ok (), .ok 0, .ok 1⟩)]
          []).length = 3 :=
  ⟨(directory_isolation_three_docs "a.pdf" "b.pdf" "c.pdf"
      ⟨.ok ⟨"hello world"⟩, true, .ok "", .ok (), .ok 0, .ok 1⟩
      ⟨.error "Failed to parse PDF: b.pdf", true, .ok "", .ok (), .ok 0, .ok 1⟩
      ⟨.ok ⟨"hello world"⟩, true, .ok "", .ok (), .ok 0, .ok 1⟩
      [] "Failed to parse PDF: b.pdf" rfl (by decide) (by decide)).2.2.1,
   (directory_isolation_three_docs "a.pdf" "b.pdf" "c.pdf"
      ⟨.ok ⟨"hello world"⟩, true, .ok "", .ok (), .ok 0, .ok 1⟩
      ⟨.error "Failed to parse PDF: b.pdf", true, .ok "", .ok (), .ok 0, .ok 1⟩
      ⟨.ok ⟨"hello world"⟩, true, .ok "", .ok (), .ok 0, .ok 1⟩
      [] "Failed to parse PDF: b.pdf" rfl (by decide) (by decide)).2.1⟩

end RealEstate
